import Mathlib

/-!
Shallow embedding of the query orchestration core of athenacli-rs:
`Athena::query` in src/athena/mod.rs, `QueryResult` in src/athena/types.rs,
and the reachable variants of `Error` in src/error.rs.

The remote service is scripted: each call the orchestrator makes
(start-query-execution, get-query-execution, get-query-results) consumes the
next event of a list, which is either a transport error or a well-formed
response value mirroring the rusoto output structures.  Panics of the Rust
code (`expect`, `unimplemented!`) are modelled as explicit `panicked`
outcomes, distinct from returned `Error` values.
-/

/-- The variants of `crate::Error` (src/error.rs) reachable from `Athena::query`. -/
inductive Error where
  | AthenaError
  | GetQueryResultsError (msg : String)
  | QueryError
  | QueryCancelled
  | QueryFailed (reason : String)
deriving DecidableEq, Repr

/-- `QueryResult` from src/athena/types.rs (field for field). -/
structure QueryResult where
  query_execution_id : String
  data : List (List String)
  data_scanned_bytes : Int
  query_queue_time_ms : Int
  rows : Int
  columns : List String
  total_execution_time_ms : Int
deriving DecidableEq, Repr

/-- `QueryResult::append_row` (types.rs lines 18-21): push the row and bump the counter. -/
def QueryResult.append_row (q : QueryResult) (row : List String) : QueryResult :=
  ⟨q.query_execution_id, q.data ++ [row], q.data_scanned_bytes, q.query_queue_time_ms,
   q.rows + 1, q.columns, q.total_execution_time_ms⟩

/-- The three statistics fields of rusoto `QueryExecutionStatistics` read by `query`. -/
structure QueryExecutionStatistics where
  data_scanned_in_bytes : Option Int
  query_queue_time_in_millis : Option Int
  total_execution_time_in_millis : Option Int
deriving DecidableEq, Repr

/-- The fields of rusoto `QueryExecutionStatus` read by `query`. -/
structure QueryExecutionStatus where
  state : Option String
  state_change_reason : Option String
deriving DecidableEq, Repr

/-- The fields of rusoto `QueryExecution` read by `query`. -/
structure QueryExecution where
  query_execution_id : Option String
  statistics : Option QueryExecutionStatistics
  status : Option QueryExecutionStatus
deriving DecidableEq, Repr

/-- Rusoto `GetQueryExecutionOutput`. -/
structure GetQueryExecutionOutput where
  query_execution : Option QueryExecution
deriving DecidableEq, Repr

/-- Outcome of classifying one well-formed get-query-execution response
(the `match res` at mod.rs lines 112-177). -/
inductive PollClass where
  | succeeded (seed : QueryResult)
  | failErr (e : Error)
  | sleepContinue
  | panicked (msg : String)
deriving DecidableEq, Repr

/-- Match arms 2-4 of mod.rs lines 139-176, reached when the first
(SUCCEEDED-with-statistics) arm does not match. -/
def classifyLater (qe : QueryExecution) : PollClass :=
  match qe.status with
  | some ⟨some st, some reason⟩ =>
    if st = "FAILED" then .failErr (.QueryFailed reason)
    else if st = "CANCELLED" then .failErr .QueryCancelled
    else .panicked "not implemented"
  | some ⟨some st, none⟩ =>
    if st = "RUNNING" ∨ st = "QUEUED" then .sleepContinue
    else .failErr .QueryError
  | _ => .failErr .QueryError

/-- The full ordered match on a get-query-execution response
(mod.rs lines 112-177).  The first arm requires the execution id, all three
statistics fields and the state to be present and the state to equal
SUCCEEDED; it seeds the `QueryResult` broken out of the loop at lines 129-137. -/
def classify (res : GetQueryExecutionOutput) : PollClass :=
  match res.query_execution with
  | none => .failErr .QueryError
  | some qe =>
    match qe.query_execution_id, qe.statistics, qe.status with
    | some qid, some ⟨some ds, some qq, some te⟩, some ⟨some st, _⟩ =>
      if st = "SUCCEEDED" then .succeeded ⟨qid, [], ds, qq, 0, [], te⟩
      else classifyLater qe
    | _, _, _ => classifyLater qe

/-- One scripted behaviour of a get-query-execution call: a transport/remote
error (`Err` at mod.rs line 94) or a well-formed response. -/
inductive GetStatusEvent where
  | transportError
  | response (out : GetQueryExecutionOutput)
deriving DecidableEq, Repr

/-- Result of the polling loop: the seeded `QueryResult` on SUCCEEDED, a
returned error, a panic (`unimplemented!`), or exhaustion of the script
(the loop would keep polling). -/
inductive PollResult where
  | ok (seed : QueryResult)
  | err (e : Error)
  | panicked
  | exhausted
deriving DecidableEq, Repr

/-- The polling loop of mod.rs lines 87-179.  `errCount` is the `err_count`
mutable counter (`u8`, starts at 0 before the loop and is never reset inside
it; it stays below 7 so `Nat` is faithful).  The second component of the
result is the total time slept, in milliseconds: 250 per tolerated transient
failure, 1000 per RUNNING/QUEUED response. -/
def pollLoop : List GetStatusEvent → Nat → PollResult × Nat
  | [], _ => (.exhausted, 0)
  | .transportError :: rest, errCount =>
    if errCount + 1 > 5 then (.err .AthenaError, 0)
    else ((pollLoop rest (errCount + 1)).1, 250 + (pollLoop rest (errCount + 1)).2)
  | .response out :: rest, errCount =>
    match classify out with
    | .succeeded seed => (.ok seed, 0)
    | .failErr e => (.err e, 0)
    | .panicked _ => (.panicked, 0)
    | .sleepContinue => ((pollLoop rest errCount).1, 1000 + (pollLoop rest errCount).2)

/-- Rusoto `Datum`: one result cell, optional varchar payload. -/
structure Datum where
  var_char_value : Option String
deriving DecidableEq, Repr

/-- Rusoto `Row`: optional list of cells. -/
structure Row where
  data : Option (List Datum)
deriving DecidableEq, Repr

/-- Rusoto `ColumnInfo` (only the `name` field is read). -/
structure ColumnInfo where
  name : String
deriving DecidableEq, Repr

/-- Rusoto `ResultSetMetadata`. -/
structure ResultSetMetadata where
  column_info : Option (List ColumnInfo)
deriving DecidableEq, Repr

/-- Rusoto `ResultSet`. -/
structure ResultSet where
  rows : Option (List Row)
  result_set_metadata : Option ResultSetMetadata
deriving DecidableEq, Repr

/-- Rusoto `GetQueryResultsOutput`. -/
structure GetQueryResultsOutput where
  result_set : Option ResultSet
  next_token : Option String
deriving DecidableEq, Repr

/-- A page-processing step that either completes or panics (the `expect`
calls of mod.rs lines 190-202). -/
inductive PageOutcome (α : Type) where
  | ok (a : α)
  | panicked (msg : String)
deriving DecidableEq, Repr

/-- The cell conversion closure of mod.rs lines 205-207:
`field.var_char_value.unwrap_or_else(String::new)`. -/
def fieldToCell (f : Datum) : String :=
  f.var_char_value.getD ""

/-- Overwrite the `columns` field (the assignment at mod.rs line 195). -/
def setColumns (q : QueryResult) (cols : List String) : QueryResult :=
  ⟨q.query_execution_id, q.data, q.data_scanned_bytes, q.query_queue_time_ms,
   q.rows, cols, q.total_execution_time_ms⟩

/-- The `for_each` over the (post-skip) rows of a page
(mod.rs lines 199-211): each row must carry `data`, its cells are converted
with `fieldToCell`, and the row is appended with `append_row`. -/
def appendRows (q : QueryResult) : List Row → PageOutcome QueryResult
  | [] => .ok q
  | r :: rs =>
    match r.data with
    | none => .panicked "missing row.data"
    | some fields => appendRows (q.append_row (fields.map fieldToCell)) rs

/-- One iteration body of the pagination loop (mod.rs lines 189-219, after
the client call): unwrap the result set, re-derive `columns` from this
page's metadata, skip the first row of this page, append the rest, and
report the page's continuation token. -/
def processPage (q : QueryResult) (out : GetQueryResultsOutput) :
    PageOutcome (QueryResult × Option String) :=
  match out.result_set with
  | none => .panicked "result_set was none"
  | some resultset =>
    match resultset.result_set_metadata with
    | none => .panicked "missing result_set_metadata"
    | some meta =>
      match meta.column_info with
      | none => .panicked "missing column_info"
      | some cols =>
        let q := setColumns q (cols.map ColumnInfo.name)
        match resultset.rows with
        | none => .panicked "missing result_set.rows"
        | some rows =>
          match appendRows q (rows.drop 1) with
          | .panicked m => .panicked m
          | .ok q => .ok (q, out.next_token)

/-- One scripted behaviour of a get-query-results call: an error propagated
by `?` (converted to `Error::GetQueryResultsError` by the `From` impl in
src/error.rs) or a well-formed response. -/
inductive GetResultsEvent where
  | transportError (msg : String)
  | response (out : GetQueryResultsOutput)
deriving DecidableEq, Repr

/-- Result of the pagination loop. -/
inductive DrainResult where
  | ok (r : QueryResult)
  | err (e : Error)
  | panicked (msg : String)
  | exhausted
deriving DecidableEq, Repr

/-- The pagination loop of mod.rs lines 188-224: process pages until one
carries no continuation token. -/
def drainLoop : QueryResult → List GetResultsEvent → DrainResult
  | _, [] => .exhausted
  | _, .transportError msg :: _ => .err (.GetQueryResultsError msg)
  | q, .response out :: rest =>
    match processPage q out with
    | .panicked m => .panicked m
    | .ok (q, tok) =>
      match tok with
      | some _ => drainLoop q rest
      | none => .ok q

/-- One scripted behaviour of the start-query-execution call: a remote
error (mapped to `Error::AthenaError`, mod.rs lines 78-81) or a response
carrying an optional execution id (unwrapped with
`expect("missing execution id")` at line 82). -/
inductive SubmitEvent where
  | transportError
  | response (query_execution_id : Option String)
deriving DecidableEq, Repr

/-- Result of a whole `Athena::query` call. -/
inductive QueryOutcome where
  | ok (r : QueryResult)
  | err (e : Error)
  | panicked (msg : String)
  | exhausted
deriving DecidableEq, Repr

/-- `Athena::query` end to end (mod.rs lines 58-227): submit, poll until a
terminal classification, then drain the paginated results. -/
def queryRun (submit : SubmitEvent) (statusEvents : List GetStatusEvent)
    (resultEvents : List GetResultsEvent) : QueryOutcome :=
  match submit with
  | .transportError => .err .AthenaError
  | .response none => .panicked "missing execution id"
  | .response (some _) =>
    match (pollLoop statusEvents 0).1 with
    | .err e => .err e
    | .panicked => .panicked "not implemented"
    | .exhausted => .exhausted
    | .ok seed =>
      match drainLoop seed resultEvents with
      | .ok r => .ok r
      | .err e => .err e
      | .panicked m => .panicked m
      | .exhausted => .exhausted

/-- Convenience constructor for a get-query-execution response whose
`status` field is present. -/
def mkStatus (qid : Option String) (stats : Option QueryExecutionStatistics)
    (st reason : Option String) : GetQueryExecutionOutput :=
  ⟨some ⟨qid, stats, some ⟨st, reason⟩⟩⟩

/-- The SUCCEEDED response of the end-to-end scenario. -/
def succOut : GetQueryExecutionOutput :=
  mkStatus (some "q-1") (some ⟨some 1024, some 50, some 900⟩) (some "SUCCEEDED") none

/-- The `QueryResult` seeded from `succOut`. -/
def seedQR : QueryResult := ⟨"q-1", [], 1024, 50, 0, [], 900⟩

/-- Page 1 of the two-page scenario: header row plus two data rows, with a
continuation token. -/
def pageOne : GetQueryResultsOutput :=
  ⟨some ⟨some [⟨some [⟨some "h1"⟩, ⟨some "h2"⟩]⟩,
               ⟨some [⟨some "r1a"⟩, ⟨some "r1b"⟩]⟩,
               ⟨some [⟨some "r2a"⟩, ⟨some "r2b"⟩]⟩],
         some ⟨some [⟨"c1"⟩, ⟨"c2"⟩]⟩⟩, some "T"⟩

/-- Page 2 of the two-page scenario: one data row, no token. -/
def pageTwo : GetQueryResultsOutput :=
  ⟨some ⟨some [⟨some [⟨some "r3a"⟩, ⟨some "r3b"⟩]⟩],
         some ⟨some [⟨"c1"⟩, ⟨"c2"⟩]⟩⟩, none⟩

/-- The single results page of the end-to-end scenario: header plus two
data rows, no token. -/
def onePage : GetQueryResultsOutput :=
  ⟨some ⟨some [⟨some [⟨some "id"⟩, ⟨some "name"⟩]⟩,
               ⟨some [⟨some "1"⟩, ⟨some "alice"⟩]⟩,
               ⟨some [⟨some "2"⟩, ⟨some "bob"⟩]⟩],
         some ⟨some [⟨"id"⟩, ⟨"name"⟩]⟩⟩, none⟩

/-- Pages 1 and 2 with distinct column metadata, to observe the `columns`
assignment: page A announces column `a`, page B announces column `b`. -/
def pageColA : GetQueryResultsOutput :=
  ⟨some ⟨some [⟨some [⟨some "h"⟩]⟩, ⟨some [⟨some "x"⟩]⟩], some ⟨some [⟨"a"⟩]⟩⟩, some "tok"⟩

/-- Second page of the distinct-metadata scenario (only a header row). -/
def pageColB : GetQueryResultsOutput :=
  ⟨some ⟨some [⟨some [⟨some "h"⟩]⟩], some ⟨some [⟨"b"⟩]⟩⟩, none⟩

/-- Whether a get-query-execution response carries everything the first
match arm of mod.rs lines 113-128 requires besides the SUCCEEDED state:
the execution id and all three statistics fields. -/
def successFieldsPresent (qid : Option String)
    (stats : Option QueryExecutionStatistics) : Bool :=
  qid.isSome &&
    (match stats with
     | some s => s.data_scanned_in_bytes.isSome
         && s.query_queue_time_in_millis.isSome
         && s.total_execution_time_in_millis.isSome
     | none => false)

/-!  Helper lemmas, shared across the claim theorems. -/

theorem classifyLater_ne_succeeded (qe : QueryExecution) (seed : QueryResult) :
    classifyLater qe ≠ PollClass.succeeded seed := by
  unfold classifyLater
  rcases qe with ⟨qid, stats, status⟩
  rcases status with _ | ⟨st, reason⟩
  · simp
  · rcases st with _ | st
    · simp
    · rcases reason with _ | r
      · dsimp only
        split <;> simp
      · dsimp only
        split
        · simp
        · split <;> simp

theorem classify_succeeded_inv (out : GetQueryExecutionOutput) (seed : QueryResult)
    (h : classify out = PollClass.succeeded seed) :
    ∃ qid ds qq te reason,
      out.query_execution
        = some ⟨some qid, some ⟨some ds, some qq, some te⟩, some ⟨some "SUCCEEDED", reason⟩⟩ ∧
      seed = ⟨qid, [], ds, qq, 0, [], te⟩ := by
  unfold classify at h
  rcases out with ⟨qe⟩
  rcases qe with _ | ⟨qid, stats, status⟩
  · simp at h
  · dsimp only at h
    rcases qid with _ | qid
    · exact absurd h (classifyLater_ne_succeeded _ _)
    · rcases stats with _ | ⟨ds, qq, te⟩
      · exact absurd h (classifyLater_ne_succeeded _ _)
      · rcases ds with _ | ds
        · exact absurd h (classifyLater_ne_succeeded _ _)
        · rcases qq with _ | qq
          · exact absurd h (classifyLater_ne_succeeded _ _)
          · rcases te with _ | te
            · exact absurd h (classifyLater_ne_succeeded _ _)
            · rcases status with _ | ⟨st, reason⟩
              · exact absurd h (classifyLater_ne_succeeded _ _)
              · rcases st with _ | st
                · exact absurd h (classifyLater_ne_succeeded _ _)
                · dsimp only at h
                  by_cases hst : st = "SUCCEEDED"
                  · rw [if_pos hst] at h
                    injection h with h
                    exact ⟨qid, ds, qq, te, reason, by rw [hst], h.symm⟩
                  · rw [if_neg hst] at h
                    exact absurd h (classifyLater_ne_succeeded _ _)

theorem append_row_rows (q : QueryResult) (row : List String) :
    (q.append_row row).rows = q.rows + 1 := rfl

theorem append_row_data (q : QueryResult) (row : List String) :
    (q.append_row row).data = q.data ++ [row] := rfl

theorem append_row_columns (q : QueryResult) (row : List String) :
    (q.append_row row).columns = q.columns := rfl

theorem appendRows_invariant (rows : List Row) : ∀ (q r : QueryResult),
    appendRows q rows = .ok r → q.rows = (q.data.length : Int) →
    r.rows = (r.data.length : Int) := by
  induction rows with
  | nil =>
    intro q r h hq
    unfold appendRows at h
    injection h with h
    exact h ▸ hq
  | cons x rs ih =>
    intro q r h hq
    unfold appendRows at h
    rcases x with ⟨d⟩
    rcases d with _ | fields
    · simp at h
    · dsimp only at h
      refine ih _ _ h ?_
      rw [append_row_rows, append_row_data, hq]
      simp

theorem appendRows_columns (rows : List Row) : ∀ (q r : QueryResult),
    appendRows q rows = .ok r → r.columns = q.columns := by
  induction rows with
  | nil =>
    intro q r h
    unfold appendRows at h
    injection h with h
    rw [h]
  | cons x rs ih =>
    intro q r h
    unfold appendRows at h
    rcases x with ⟨d⟩
    rcases d with _ | fields
    · simp at h
    · dsimp only at h
      rw [ih _ _ h, append_row_columns]

theorem pollLoop_replicate (k : Nat) : ∀ (c : Nat) (evs : List GetStatusEvent),
    c + k ≤ 5 →
    pollLoop (List.replicate k .transportError ++ evs) c
      = ((pollLoop evs (c + k)).1, 250 * k + (pollLoop evs (c + k)).2) := by
  induction k with
  | zero =>
    intro c evs _
    simp
  | succ k ih =>
    intro c evs h
    rw [List.replicate_succ, List.cons_append]
    have hc : ¬ (c + 1 > 5) := by omega
    simp only [pollLoop]
    rw [if_neg hc, ih (c + 1) evs (by omega)]
    have h1 : c + 1 + k = c + (k + 1) := by omega
    rw [h1]
    have h2 : 250 + (250 * k + (pollLoop evs (c + (k + 1))).2)
        = 250 * (k + 1) + (pollLoop evs (c + (k + 1))).2 := by ring
    rw [h2]

theorem processPage_inv (q : QueryResult) (out : GetQueryResultsOutput)
    (p : QueryResult × Option String) (h : processPage q out = .ok p) :
    ∃ rs meta cols rows,
      out.result_set = some rs ∧ rs.result_set_metadata = some meta ∧
      meta.column_info = some cols ∧ rs.rows = some rows ∧
      appendRows (setColumns q (cols.map ColumnInfo.name)) (rows.drop 1) = .ok p.1 ∧
      p.2 = out.next_token := by
  unfold processPage at h
  rcases out with ⟨ors, tok⟩
  rcases ors with _ | rs
  · simp at h
  · rcases rs with ⟨orows, ometa⟩
    rcases ometa with _ | meta
    · simp at h
    · rcases meta with ⟨ocols⟩
      rcases ocols with _ | cols
      · simp at h
      · rcases orows with _ | rows
        · simp at h
        · dsimp only at h
          rcases hh : appendRows (setColumns q (cols.map ColumnInfo.name)) (rows.drop 1) with q2 | m
          · rw [hh] at h
            injection h with h
            exact ⟨⟨some rows, some ⟨some cols⟩⟩, ⟨some cols⟩, cols, rows,
              rfl, rfl, rfl, rfl, by rw [hh, ← h], by rw [← h]⟩
          · rw [hh] at h
            simp at h

theorem classify_not_succeeded (qid : Option String)
    (stats : Option QueryExecutionStatistics) (st : String) (reason : Option String)
    (hst : st ≠ "SUCCEEDED") :
    classify (mkStatus qid stats (some st) reason)
      = classifyLater ⟨qid, stats, some ⟨some st, reason⟩⟩ := by
  rcases qid with _ | q
  · rcases stats with _ | ⟨ds, qq, te⟩
    · rfl
    · rcases ds with _ | ds <;> rcases qq with _ | qq <;> rcases te with _ | te <;> rfl
  · rcases stats with _ | ⟨ds, qq, te⟩
    · rfl
    · rcases ds with _ | ds <;> rcases qq with _ | qq <;> rcases te with _ | te <;>
        first
          | rfl
          | (simp only [classify, mkStatus]; rw [if_neg hst])

/-!  Claim theorems. -/

/-- C1: on the two-page stream (page 1 = header + row1 + row2 with a
continuation token, page 2 = row3 with no token) the drain loop of `query`
yields only row1 and row2: `skip(1)` at mod.rs line 200 runs on every page,
so the first row of page 2 (a data row, since the service repeats the header
only on the first page) is silently dropped.  This contradicts the spec,
which requires the header to be discarded from the very first page only and
the output to be row1, row2, row3. -/
theorem drain_drops_first_row_of_every_page :
    drainLoop seedQR [.response pageOne, .response pageTwo]
      = .ok ⟨"q-1", [["r1a", "r1b"], ["r2a", "r2b"]], 1024, 50, 2, ["c1", "c2"], 900⟩ := by
  rfl

/-- C2: the transient-error counter starts at 0 and is never reset inside
the polling loop.  Any prefix of k ≤ 5 consecutive transport failures adds
250 ms of sleep per failure and continues the loop with counter k and no
other state advanced; after at most 5 such failures a well-formed SUCCEEDED
response is processed normally; a 6th consecutive transport failure makes
the call fail with the poll error (`Error::AthenaError`). -/
theorem transient_retry_budget :
    (∀ (k : Nat) (evs : List GetStatusEvent), k ≤ 5 →
      pollLoop (List.replicate k .transportError ++ evs) 0
        = ((pollLoop evs k).1, 250 * k + (pollLoop evs k).2)) ∧
    (∀ (k : Nat), k ≤ 5 → ∀ (qid : String) (ds qq te : Int) (reason : Option String)
        (evs : List GetStatusEvent),
      pollLoop (List.replicate k .transportError
          ++ .response (mkStatus (some qid) (some ⟨some ds, some qq, some te⟩)
              (some "SUCCEEDED") reason) :: evs) 0
        = (.ok ⟨qid, [], ds, qq, 0, [], te⟩, 250 * k)) ∧
    (∀ evs : List GetStatusEvent,
      pollLoop (List.replicate 6 .transportError ++ evs) 0
        = (.err .AthenaError, 1250)) := by
  have base : ∀ (k : Nat) (evs : List GetStatusEvent), k ≤ 5 →
      pollLoop (List.replicate k .transportError ++ evs) 0
        = ((pollLoop evs k).1, 250 * k + (pollLoop evs k).2) := by
    intro k evs hk
    have h := pollLoop_replicate k 0 evs (by omega)
    rwa [Nat.zero_add] at h
  refine ⟨base, ?_, ?_⟩
  · intro k hk qid ds qq te reason evs
    rw [base k _ hk]
    have hcl : classify (mkStatus (some qid) (some ⟨some ds, some qq, some te⟩)
        (some "SUCCEEDED") reason) = .succeeded ⟨qid, [], ds, qq, 0, [], te⟩ := rfl
    simp only [pollLoop, hcl, Nat.add_zero]
  · intro evs
    have h6 : List.replicate 6 GetStatusEvent.transportError ++ evs
        = List.replicate 5 GetStatusEvent.transportError
            ++ (GetStatusEvent.transportError :: evs) := rfl
    rw [h6, pollLoop_replicate 5 0 _ (by omega)]
    simp [pollLoop]

/-- C2 witness: three transport failures then a well-formed SUCCEEDED
response give the seeded result after 750 ms of retry sleep. -/
theorem transient_retry_budget_witness :
    pollLoop (List.replicate 3 .transportError
        ++ .response (mkStatus (some "q-1") (some ⟨some 1024, some 50, some 900⟩)
            (some "SUCCEEDED") none) :: []) 0
      = (.ok ⟨"q-1", [], 1024, 50, 0, [], 900⟩, 250 * 3) :=
  transient_retry_budget.2.1 3 (by decide) "q-1" 1024 50 900 none []

/-- C3 counterexample: the `columns` field is not fixed after the first
page.  With page A announcing column `a` (plus a token) and page B
announcing column `b`, the drained result carries `columns = [b]`, so
processing the second page overwrote the value captured from the first. -/
theorem columns_overwritten_counterexample :
    drainLoop seedQR [.response pageColA, .response pageColB]
      = .ok ⟨"q-1", [["x"]], 1024, 50, 1, ["b"], 900⟩ ∧ ("b" : String) ≠ "a" :=
  ⟨rfl, by decide⟩

/-- C3 (amended): the output column list is re-derived from the metadata of
every page: after each successfully processed page, `columns` equals that
page's column names, whatever the previous value was.  (It is unchanged by
pages 2..n only when the service repeats identical metadata.) -/
theorem columns_rederived_from_every_page (q : QueryResult)
    (out : GetQueryResultsOutput) (p : QueryResult × Option String)
    (h : processPage q out = .ok p) :
    ∃ rs meta cols, out.result_set = some rs ∧ rs.result_set_metadata = some meta ∧
      meta.column_info = some cols ∧ p.1.columns = cols.map ColumnInfo.name := by
  obtain ⟨rs, meta, cols, rows, h1, h2, h3, _, h5, _⟩ := processPage_inv q out p h
  refine ⟨rs, meta, cols, h1, h2, h3, ?_⟩
  rw [appendRows_columns _ _ _ h5]
  rfl

/-- C3 witness: `columns_rederived_from_every_page` applied to page B
processed from the seeded result. -/
theorem columns_rederived_witness :
    ∃ rs meta cols, pageColB.result_set = some rs ∧
      rs.result_set_metadata = some meta ∧ meta.column_info = some cols ∧
      ((⟨"q-1", [], 1024, 50, 0, ["b"], 900⟩, (none : Option String))
          : QueryResult × Option String).1.columns = cols.map ColumnInfo.name :=
  columns_rederived_from_every_page seedQR pageColB
    (⟨"q-1", [], 1024, 50, 0, ["b"], 900⟩, none) rfl

/-- C4 counterexample: a well-formed response with state SUCCEEDED,
statistics absent but a state-change reason present does not fail with a
ProtocolError-class error: the second match arm (mod.rs lines 139-156)
captures it and hits `unimplemented!()`, a panic, which is not a returned
`Error` value. -/
theorem succeeded_without_stats_panics :
    classify (mkStatus none none (some "SUCCEEDED") (some "boom"))
      = .panicked "not implemented" ∧
    PollClass.panicked "not implemented" ≠ .failErr .QueryError := by
  exact ⟨rfl, by decide⟩

/-- C4 (amended): a well-formed SUCCEEDED response carrying the execution id
and all three statistics fields terminates the poll loop immediately with a
success carrying exactly those statistics; every success produced by the
classification carries statistics taken verbatim from the response (never
zeroed); a SUCCEEDED response missing the execution id or any statistics
field fails with `Error::QueryError`, and so does a response with an
unrecognized state — provided, in both cases, that no state-change reason
text is present (a response with a reason and a state other than
FAILED/CANCELLED reaches the `unimplemented!()` panic instead). -/
theorem succeeded_and_protocol_classification :
    (∀ (qid : String) (ds qq te : Int) (reason : Option String),
      classify (mkStatus (some qid) (some ⟨some ds, some qq, some te⟩)
          (some "SUCCEEDED") reason)
        = .succeeded ⟨qid, [], ds, qq, 0, [], te⟩) ∧
    (∀ (out : GetQueryExecutionOutput) (seed : QueryResult),
      classify out = .succeeded seed →
      ∃ qid reason, out.query_execution = some ⟨some qid,
          some ⟨some seed.data_scanned_bytes, some seed.query_queue_time_ms,
                some seed.total_execution_time_ms⟩,
          some ⟨some "SUCCEEDED", reason⟩⟩ ∧ seed.rows = 0 ∧ seed.data = []) ∧
    (∀ (qid : Option String) (stats : Option QueryExecutionStatistics),
      successFieldsPresent qid stats = false →
      classify (mkStatus qid stats (some "SUCCEEDED") none) = .failErr .QueryError) ∧
    (∀ (qid : Option String) (stats : Option QueryExecutionStatistics) (st : String),
      st ≠ "SUCCEEDED" → st ≠ "RUNNING" → st ≠ "QUEUED" →
      classify (mkStatus qid stats (some st) none) = .failErr .QueryError) := by
  refine ⟨fun qid ds qq te reason => rfl, ?_, ?_, ?_⟩
  · intro out seed h
    obtain ⟨qid, ds, qq, te, reason, heq, hseed⟩ := classify_succeeded_inv out seed h
    subst hseed
    exact ⟨qid, reason, heq, rfl, rfl⟩
  · intro qid stats hf
    rcases qid with _ | q
    · rcases stats with _ | ⟨ds, qq, te⟩
      · rfl
      · rcases ds with _ | ds <;> rcases qq with _ | qq <;> rcases te with _ | te <;> rfl
    · rcases stats with _ | ⟨ds, qq, te⟩
      · rfl
      · rcases ds with _ | ds <;> rcases qq with _ | qq <;> rcases te with _ | te <;>
          first
            | rfl
            | (exfalso; simp [successFieldsPresent] at hf)
  · intro qid stats st h1 h2 h3
    rw [classify_not_succeeded qid stats st none h1]
    unfold classifyLater
    dsimp only
    rw [if_neg ?_]
    rintro (h | h)
    · exact h2 h
    · exact h3 h

/-- C4 witness: a SUCCEEDED response with no execution id and no statistics
(and no reason text) is classified as `Error::QueryError`. -/
theorem succeeded_and_protocol_classification_witness :
    classify (mkStatus none none (some "SUCCEEDED") none) = .failErr .QueryError :=
  succeeded_and_protocol_classification.2.2.1 none none (by decide)

/-- C5 counterexample: a well-formed CANCELLED response with no state-change
reason does not produce `Error::QueryCancelled`: the reason-matching arm
requires the reason to be present, so the response falls through to the
catch-all arm and yields `Error::QueryError`. -/
theorem cancelled_without_reason_counterexample :
    classify (mkStatus none none (some "CANCELLED") none) = .failErr .QueryError ∧
    Error.QueryError ≠ Error.QueryCancelled := by
  exact ⟨rfl, by decide⟩

/-- C5 (amended): a well-formed FAILED response with reason text X fails
with `Error::QueryFailed(X)`, the reason passed through verbatim; a
CANCELLED response with a reason text present fails with
`Error::QueryCancelled`; a CANCELLED response without reason text fails
with `Error::QueryError` instead. -/
theorem failed_cancelled_classification :
    (∀ (qid : Option String) (stats : Option QueryExecutionStatistics) (x : String),
      classify (mkStatus qid stats (some "FAILED") (some x))
        = .failErr (.QueryFailed x)) ∧
    (∀ (qid : Option String) (stats : Option QueryExecutionStatistics) (x : String),
      classify (mkStatus qid stats (some "CANCELLED") (some x))
        = .failErr .QueryCancelled) ∧
    (∀ (qid : Option String) (stats : Option QueryExecutionStatistics),
      classify (mkStatus qid stats (some "CANCELLED") none)
        = .failErr .QueryError) := by
  refine ⟨?_, ?_, ?_⟩
  · intro qid stats x
    rw [classify_not_succeeded qid stats "FAILED" (some x) (by decide)]
    rfl
  · intro qid stats x
    rw [classify_not_succeeded qid stats "CANCELLED" (some x) (by decide)]
    rfl
  · intro qid stats
    rw [classify_not_succeeded qid stats "CANCELLED" none (by decide)]
    rfl

/-- C6 counterexample: a successful submit response lacking an execution id
does not surface as a returned `Error` value: `expect("missing execution
id")` at mod.rs line 82 panics. -/
theorem missing_execution_id_counterexample :
    queryRun (.response none) [] [] = .panicked "missing execution id" ∧
    QueryOutcome.panicked "missing execution id" ≠ .err .AthenaError := by
  exact ⟨rfl, by decide⟩

/-- C6 (amended): any remote error from the submit operation is fatal and
surfaces as `Error::AthenaError` with no polling or pagination performed
(the outcome is independent of every later scripted response); a successful
submit response lacking an execution id is also fatal before any polling,
but as a panic, not as a returned `Error` value. -/
theorem submit_failure_fatal :
    (∀ (se : List GetStatusEvent) (re : List GetResultsEvent),
      queryRun .transportError se re = .err .AthenaError) ∧
    (∀ (se : List GetStatusEvent) (re : List GetResultsEvent),
      queryRun (.response none) se re = .panicked "missing execution id") :=
  ⟨fun _ _ => rfl, fun _ _ => rfl⟩

/-- C7: the invariant `rows == len(data)` holds throughout pagination: the
seed broken out of the poll loop has `rows = 0` and empty data, each
`append_row` pushes exactly one row and bumps the counter by one, and
processing any page preserves the invariant — so it holds after every page,
not only at the end of the drain. -/
theorem row_count_invariant :
    (∀ (out : GetQueryExecutionOutput) (seed : QueryResult),
      classify out = .succeeded seed → seed.rows = 0 ∧ seed.data = []) ∧
    (∀ (q : QueryResult) (row : List String),
      (q.append_row row).rows = q.rows + 1 ∧
      (q.append_row row).data = q.data ++ [row]) ∧
    (∀ (q : QueryResult) (out : GetQueryResultsOutput)
        (p : QueryResult × Option String),
      q.rows = (q.data.length : Int) → processPage q out = .ok p →
      p.1.rows = (p.1.data.length : Int)) := by
  refine ⟨?_, fun q row => ⟨rfl, rfl⟩, ?_⟩
  · intro out seed h
    obtain ⟨qid, ds, qq, te, reason, _, hseed⟩ := classify_succeeded_inv out seed h
    subst hseed
    exact ⟨rfl, rfl⟩
  · intro q out p hq h
    obtain ⟨rs, meta, cols, rows, _, _, _, _, h5, _⟩ := processPage_inv q out p h
    exact appendRows_invariant _ _ _ h5 hq

/-- C7 witness: `row_count_invariant` applied to the seeded result and page
A, whose processed result holds one row and counter 1. -/
theorem row_count_invariant_witness :
    (⟨"q-1", [["x"]], 1024, 50, 1, ["a"], 900⟩ : QueryResult).rows
      = (((⟨"q-1", [["x"]], 1024, 50, 1, ["a"], 900⟩ : QueryResult).data.length : Int)) :=
  row_count_invariant.2.2 seedQR pageColA
    (⟨"q-1", [["x"]], 1024, 50, 1, ["a"], 900⟩, some "tok") rfl rfl

/-- C8: end-to-end scenario — submit returns execution id q-1, polling sees
QUEUED, RUNNING, then SUCCEEDED with statistics (1024 bytes scanned, 50 ms
queued, 900 ms total), and a single page carries columns id, name and the
header plus two data rows with no token; `query` returns the result with
rowCount 2, columns id, name, data rows (1, alice) and (2, bob), 1024 bytes
scanned and 900 ms total execution time. -/
theorem end_to_end_scenario :
    queryRun (.response (some "q-1"))
      [.response (mkStatus none none (some "QUEUED") none),
       .response (mkStatus none none (some "RUNNING") none),
       .response succOut]
      [.response onePage]
      = .ok ⟨"q-1", [["1", "alice"], ["2", "bob"]], 1024, 50, 2, ["id", "name"], 900⟩ := by
  rfl

/-- C9: a well-formed QUEUED or RUNNING response continues polling (after a
1-second sleep, with the transient-error counter untouched) only when its
state-change reason text is absent; when a reason is present the response is
captured by the earlier reason-matching arm and reaches the
`unimplemented!()` panic, which is therefore reachable. -/
theorem queued_running_with_reason_panics (st : String)
    (hst : st = "QUEUED" ∨ st = "RUNNING") :
    (∀ (qid : Option String) (stats : Option QueryExecutionStatistics) (reason : String),
      classify (mkStatus qid stats (some st) (some reason))
        = .panicked "not implemented") ∧
    (∀ (qid : Option String) (stats : Option QueryExecutionStatistics),
      classify (mkStatus qid stats (some st) none) = .sleepContinue) ∧
    (∀ (out : GetQueryExecutionOutput) (rest : List GetStatusEvent) (c : Nat),
      classify out = .sleepContinue →
      pollLoop (.response out :: rest) c
        = ((pollLoop rest c).1, 1000 + (pollLoop rest c).2)) := by
  refine ⟨?_, ?_, ?_⟩
  · intro qid stats reason
    rcases hst with h | h <;> subst h <;>
      rw [classify_not_succeeded _ _ _ _ (by decide)] <;> rfl
  · intro qid stats
    rcases hst with h | h <;> subst h <;>
      rw [classify_not_succeeded _ _ _ _ (by decide)] <;> rfl
  · intro out rest c h
    simp only [pollLoop, h]

/-- C9 witness: a QUEUED response with a state-change reason is classified
as the panic outcome. -/
theorem queued_running_with_reason_panics_witness :
    classify (mkStatus none none (some "QUEUED") (some "requeued"))
      = .panicked "not implemented" :=
  (queued_running_with_reason_panics "QUEUED" (Or.inl rfl)).1 none none "requeued"

/-- C10: every cell of every appended row is a total string: a present
varchar value is used as is, an absent one becomes the empty string; a row
whose cells are all absent still appends fine (only a missing `data` field
of a whole row panics), and every row added by the page loop is exactly the
`fieldToCell` image of a source row. -/
theorem cells_total_strings :
    (∀ s : String, fieldToCell ⟨some s⟩ = s) ∧
    (fieldToCell ⟨none⟩ = "") ∧
    (∀ (q : QueryResult) (rows : List Row), (∀ r ∈ rows, r.data.isSome) →
      ∃ res, appendRows q rows = .ok res) ∧
    (∀ (q : QueryResult) (rows : List Row) (res : QueryResult),
      appendRows q rows = .ok res → ∀ row ∈ res.data,
        row ∈ q.data ∨ ∃ src, src ∈ rows ∧ ∃ fields, src.data = some fields ∧
          row = fields.map fieldToCell) := by
  refine ⟨fun s => rfl, rfl, ?_, ?_⟩
  · intro q rows
    induction rows generalizing q with
    | nil => exact fun _ => ⟨q, rfl⟩
    | cons x rs ih =>
      intro hall
      rcases x with ⟨d⟩
      rcases d with _ | fields
      · have hx := hall ⟨none⟩ (List.mem_cons_self _ _)
        simp at hx
      · exact ih _ (fun r hr => hall r (List.mem_cons_of_mem _ hr))
  · intro q rows
    induction rows generalizing q with
    | nil =>
      intro res h row hrow
      unfold appendRows at h
      injection h with h
      subst h
      exact Or.inl hrow
    | cons x rs ih =>
      intro res h row hrow
      unfold appendRows at h
      rcases x with ⟨d⟩
      rcases d with _ | fields
      · simp at h
      · dsimp only at h
        rcases ih _ res h row hrow with hin | ⟨src, hsrc, fields2, hf, he⟩
        · rw [append_row_data] at hin
          rcases List.mem_append.mp hin with h1 | h1
          · exact Or.inl h1
          · have hrw : row = fields.map fieldToCell := by simpa using h1
            exact Or.inr ⟨⟨some fields⟩, List.mem_cons_self _ _, fields, rfl, hrw⟩
        · exact Or.inr ⟨src, List.mem_cons_of_mem _ hsrc, fields2, hf, he⟩

/-- C10 witness: a row with one absent and one present cell value appends
without error. -/
theorem cells_total_strings_witness :
    ∃ res, appendRows seedQR [⟨some [⟨none⟩, ⟨some "v"⟩]⟩] = .ok res :=
  cells_total_strings.2.2.1 seedQR [⟨some [⟨none⟩, ⟨some "v"⟩]⟩] (by decide)
